import Mathlib

/-!
Shallow embedding of the geospatial visibility and access-control layer of the
CivicTrack issue-reporting backend (Express/Mongoose, JavaScript), together
with proofs about it.

Sources embedded here:
* `middleware/distanceMiddleware.js` — `enforceDistanceRestrictions`,
  `validateUserLocation`, `filterIssuesByDistance`, `preventOutOfAreaAccess`,
  `enforceLocationRestrictions`;
* the anonymity middleware — `filterAnonymousData`, `restrictDataAccess`;
* the issue controller — the guard section of `getIssue` (location
  requirement, coordinate validation, hidden-issue check, strict distance
  check);
* `utils/geoUtils.js` — `calculateDistance` (haversine).

Modelling conventions:
* JavaScript numbers appearing in guard logic are modelled as `ℚ`; the
  trigonometric distance function itself is modelled over `ℝ`.
* A raw numeric query-string parameter is `Option (Option ℚ)`: `none` means
  the parameter is absent (falsy in `if (latitude && longitude)`),
  `some none` means present but `parseFloat` returns `NaN`, and
  `some (some q)` means present and parsing to `q`.  All JavaScript
  comparisons with `NaN` are false; the embedding reproduces this at each
  comparison site.
* `AppError(message, statusCode)` is embedded as a structure; guard
  middlewares become functions into `Except AppError _` (`.error e` models
  `next(new AppError(...))`, `.ok` models falling through to `next()`).
* The distance calculator consumed by the guards is passed as an explicit
  function parameter (the JavaScript modules obtain it via `require`), so
  guard theorems hold for every distance function and can be evaluated on
  concrete ones.
-/

/-- A raw query-string parameter holding a number: `none` = absent,
`some none` = present but `parseFloat` gives `NaN`, `some (some q)` = parses
to `q`. -/
abbrev QueryParam := Option (Option ℚ)

/-- Embedding of the `AppError` class of `middleware/errorHandler.js`:
an operational error carrying a message and an HTTP status code. -/
structure AppError where
  message : String
  statusCode : ℕ
deriving DecidableEq

/-- The authenticated caller (`req.user`): Mongo id and role string
(`'user' | 'moderator' | 'admin'`). -/
structure User where
  _id : ℕ
  role : String
deriving DecidableEq

/-- A populated `reportedBy` reference (`populate('reportedBy', 'username email')`),
or the anonymous sentinel `{_id: null, username: 'Anonymous', email: null}`. -/
structure Reporter where
  _id : Option ℕ
  username : Option String
  email : Option String
deriving DecidableEq

/-- A populated `comment.user` / `log.actor` reference carrying an id and a
username. -/
structure UserRef where
  _id : ℕ
  username : Option String
deriving DecidableEq

/-- An embedded comment: denormalized commenter `username`, optional populated
`user` reference, and `text` standing for the fields the object spread keeps. -/
structure Comment where
  username : Option String
  user : Option UserRef
  text : String
deriving DecidableEq

/-- An embedded activity-log entry: denormalized `actorName`, optional
populated `actor` reference, and `action` standing for the spread-kept rest. -/
structure LogEntry where
  actorName : Option String
  actor : Option UserRef
  action : String
deriving DecidableEq

/-- The slice of an issue document consumed by the access-control layer.
`location` models `issue.location.coordinates`, a GeoJSON `[lng, lat]` pair;
`none` covers both a missing `location` and missing `coordinates` (the code
always tests `issue.location && issue.location.coordinates`). -/
structure Issue where
  _id : ℕ
  title : String
  location : Option (ℚ × ℚ)
  reportedBy : Option Reporter
  isAnonymous : Bool
  isHidden : Bool
  reporterName : Option String
  comments : Option (List Comment)
  activityLog : Option (List LogEntry)
deriving DecidableEq

/-- JavaScript `s || d` on an optional string: `undefined`/`null` and the
empty string are falsy. -/
def jsOr (s : Option String) (d : String) : String :=
  match s with
  | some v => if v = "" then d else v
  | none => d

/-- The per-comment transformation inside `filterAnonymousData`:
`{...comment, username: comment.username || 'Anonymous',
user: comment.user ? {_id: comment.user._id, username: comment.username || 'Anonymous'} : null}`. -/
def redactComment (c : Comment) : Comment :=
  { c with
    username := some (jsOr c.username "Anonymous")
    user := match c.user with
      | some u => some { _id := u._id, username := some (jsOr c.username "Anonymous") }
      | none => none }

/-- The per-log-entry transformation inside `filterAnonymousData`:
`{...log, actorName: log.actorName || 'System',
actor: log.actor ? {_id: log.actor._id, username: log.actorName || 'System'} : null}`. -/
def redactLogEntry (l : LogEntry) : LogEntry :=
  { l with
    actorName := some (jsOr l.actorName "System")
    actor := match l.actor with
      | some a => some { _id := a._id, username := some (jsOr l.actorName "System") }
      | none => none }

/-- `filterAnonymousData(issue, user)` from the anonymity middleware: copies
the issue; if `issue.isAnonymous || !issue.reportedBy` replaces the reporter
with the fixed sentinel and forces `isAnonymous`, otherwise exposes
`reportedBy.username` as `reporterName`; then rewrites `comments` and
`activityLog` entrywise.  The `user` parameter is accepted and ignored,
exactly as in the source. -/
def filterAnonymousData (issue : Issue) (user : Option User) : Issue :=
  let filteredIssue :=
    if issue.isAnonymous || issue.reportedBy.isNone then
      { issue with
        reportedBy := some { _id := none, username := some "Anonymous", email := none }
        reporterName := some "Anonymous"
        isAnonymous := true }
    else
      { issue with
        reporterName := issue.reportedBy.bind Reporter.username
        isAnonymous := false }
  { filteredIssue with
    comments := filteredIssue.comments.map (List.map redactComment)
    activityLog := filteredIssue.activityLog.map (List.map redactLogEntry) }

/-- The single-issue branch of `restrictDataAccess`: on `data.data.issue`,
an admin caller sees the record unchanged; otherwise, when
`issue.reportedBy && issue.reportedBy._id`, a caller who is not the owner
(`reportedBy._id !== req.user._id`, owner is false without `req.user`)
receives `filterAnonymousData(issue, req.user)`; in all remaining cases the
record passes through unchanged. -/
def restrictDataAccessIssue (user : Option User) (issue : Issue) : Issue :=
  if user.map User.role = some "admin" then issue
  else
    match issue.reportedBy with
    | some r =>
      match r._id with
      | some rid =>
        let isOwner : Bool := match user with
          | some u => rid == u._id
          | none => false
        if isOwner then issue else filterAnonymousData issue user
      | none => issue
    | none => issue

/-- JavaScript `s.includes(sub)` on strings: some suffix of `s` starts with
`sub`.  Used by the path tests in the route-level middlewares. -/
def jsIncludes (s sub : String) : Bool :=
  (List.range (s.length + 1)).any (fun i => (s.drop i).startsWith sub)

/-- `enforceLocationRestrictions(req, res, next)`: skips `/admin` and `/stats`
paths; for `POST /` validates the body's `location.coordinates` (`[lng, lat]`,
`none` models a missing `location` or missing `coordinates`); for any other
`GET` requires `latitude`/`longitude` query parameters and rejects `NaN` or
out-of-range values. -/
def enforceLocationRestrictions (method path : String)
    (bodyCoordinates : Option (ℚ × ℚ)) (latitude longitude : QueryParam) :
    Except AppError Unit :=
  if jsIncludes path "/admin" || jsIncludes path "/stats" then .ok ()
  else
    let postCheck : Except AppError Unit :=
      if method = "POST" && path = "/" then
        match bodyCoordinates with
        | none => .error ⟨"Location coordinates are required for issue reporting", 400⟩
        | some (lng, lat) =>
          if lat < -90 ∨ lat > 90 ∨ lng < -180 ∨ lng > 180 then
            .error ⟨"Invalid location coordinates provided", 400⟩
          else .ok ()
      else .ok ()
    match postCheck with
    | .error e => .error e
    | .ok _ =>
      if method = "GET" && !jsIncludes path "/stats" then
        match latitude, longitude with
        | some latRaw, some lngRaw =>
          match latRaw, lngRaw with
          | some lat, some lng =>
            if lat < -90 ∨ lat > 90 ∨ lng < -180 ∨ lng > 180 then
              .error ⟨"Invalid location coordinates provided", 400⟩
            else .ok ()
          | _, _ => .error ⟨"Invalid location coordinates provided", 400⟩
        | _, _ =>
          .error ⟨"Location coordinates (latitude, longitude) are required for security and privacy", 400⟩
      else .ok ()

/-- `validateUserLocation(req, res, next)`: requires `latitude`/`longitude`
when the request path contains `/issues` but not `/stats`.  (With the router
mounted at `/api/issues`, `req.path` inside the router is mount-relative, so
for the wired routes this test is false and the middleware passes through.) -/
def validateUserLocation (path : String) (latitude longitude : QueryParam) :
    Except AppError Unit :=
  if jsIncludes path "/issues" && !jsIncludes path "/stats" then
    match latitude, longitude with
    | some _, some _ => .ok ()
    | _, _ =>
      .error ⟨"Location coordinates (latitude, longitude) are required for security", 400⟩
  else .ok ()

/-- `enforceDistanceRestrictions(req, res, next)`: with
`maxAllowedDistance = parseInt(process.env.MAX_SEARCH_RADIUS) || 5`, rejects a
present numeric `distance` exceeding the maximum (a `NaN` comparison is false,
so a non-numeric `distance` falls through); then, when both coordinates are
present, rejects out-of-range values (the `NaN` case passes every `<`/`>`
test, exactly as in JavaScript). -/
def distanceTooLargeMessage (maxAllowedDistance : ℕ) : String :=
  s!"Distance cannot exceed {maxAllowedDistance}km for security reasons"

def enforceDistanceRestrictions (maxSearchRadius : Option ℕ)
    (latitude longitude distance : QueryParam) : Except AppError Unit :=
  let maxAllowedDistance := maxSearchRadius.getD 5
  let distanceCheck : Except AppError Unit :=
    match distance with
    | some (some d) =>
      if d > (maxAllowedDistance : ℚ) then
        .error ⟨distanceTooLargeMessage maxAllowedDistance, 400⟩
      else .ok ()
    | _ => .ok ()
  match distanceCheck with
  | .error e => .error e
  | .ok _ =>
    match latitude, longitude with
    | some (some lat), some (some lng) =>
      if lat < -90 ∨ lat > 90 ∨ lng < -180 ∨ lng > 180 then
        .error ⟨"Invalid coordinates provided", 400⟩
      else .ok ()
    | _, _ => .ok ()

/-- The access-gate middleware chain of the list route `GET /` (and likewise
`GET /map`) as wired in the issue router:
`enforceLocationRestrictions, validateUserLocation, enforceDistanceRestrictions`
run in order on the mount-relative path `/`.  No distance function is involved
anywhere in this chain: rejections here happen before any distance
computation. -/
def listRequestGate (maxSearchRadius : Option ℕ)
    (latitude longitude distance : QueryParam) : Except AppError Unit :=
  match enforceLocationRestrictions "GET" "/" none latitude longitude with
  | .error e => .error e
  | .ok _ =>
    match validateUserLocation "/" latitude longitude with
    | .error e => .error e
    | .ok _ => enforceDistanceRestrictions maxSearchRadius latitude longitude distance

/-- The effective radius computed by `filterIssuesByDistance`:
`Math.min(parseFloat(distance), parseInt(process.env.MAX_SEARCH_RADIUS) || 5)`
with the destructuring default `distance = 5`; `none` is the `NaN` outcome of
a present non-numeric `distance`. -/
def effectiveRadius (maxSearchRadius : Option ℕ) (distance : QueryParam) : Option ℚ :=
  match distance with
  | none => some (min 5 (maxSearchRadius.getD 5 : ℚ))
  | some (some d) => some (min d (maxSearchRadius.getD 5 : ℚ))
  | some none => none

/-- `filterIssuesByDistance(req, res, next)`: when the response carries an
issue list and both caller coordinates are present, keeps exactly the issues
having `location.coordinates` whose computed distance is `<= maxDistance`
(any comparison involving a `NaN` coordinate or a `NaN` effective radius is
false and drops the issue); without caller coordinates the list is left
untouched. -/
def filterIssuesByDistance (calculateDistance : ℚ → ℚ → ℚ → ℚ → ℚ)
    (maxSearchRadius : Option ℕ) (latitude longitude distance : QueryParam)
    (issues : List Issue) : List Issue :=
  match latitude, longitude with
  | some latRaw, some lngRaw =>
    issues.filter (fun issue =>
      match issue.location with
      | none => false
      | some (issueLng, issueLat) =>
        match latRaw, lngRaw, effectiveRadius maxSearchRadius distance with
        | some userLat, some userLng, some maxDistance =>
          decide (calculateDistance userLat userLng issueLat issueLng ≤ maxDistance)
        | _, _, _ => false)
  | _, _ => issues

/-- The 403 message of the strict distance check in `getIssue`; it names the
configured maximum allowed distance. -/
def outOfAreaMessage (maxAllowedDistance : ℕ) : String :=
  s!"This issue is outside your allowed area. You can only access issues within {maxAllowedDistance}km of your location."

/-- The guard section of the `getIssue` controller (`GET /api/issues/:id`):
requires `latitude`/`longitude`, validates them (`isNaN` or out of range →
400), resolves the issue by id (`none` → 404 `Issue not found`), returns the
same 404 for a hidden issue unless `req.user.role === 'admin'`, and finally,
when the issue has `location.coordinates`, rejects with a 403 naming the
maximum radius whenever the computed distance exceeds
`parseInt(process.env.MAX_SEARCH_RADIUS) || 5`.  `.ok issue` models control
reaching the response-processing section, i.e. access being allowed. -/
def getIssue (calculateDistance : ℚ → ℚ → ℚ → ℚ → ℚ) (maxSearchRadius : Option ℕ)
    (user : Option User) (latitude longitude : QueryParam)
    (issueById : Option Issue) : Except AppError Issue :=
  match latitude, longitude with
  | some latRaw, some lngRaw =>
    let maxAllowedDistance := maxSearchRadius.getD 5
    match latRaw, lngRaw with
    | some userLat, some userLng =>
      if userLat < -90 ∨ userLat > 90 ∨ userLng < -180 ∨ userLng > 180 then
        .error ⟨"Invalid location coordinates provided", 400⟩
      else
        match issueById with
        | none => .error ⟨"Issue not found", 404⟩
        | some issue =>
          if issue.isHidden ∧ ¬user.map User.role = some "admin" then
            .error ⟨"Issue not found", 404⟩
          else
            match issue.location with
            | some (issueLng, issueLat) =>
              if calculateDistance userLat userLng issueLat issueLng > (maxAllowedDistance : ℚ) then
                .error ⟨outOfAreaMessage maxAllowedDistance, 403⟩
              else .ok issue
            | none => .ok issue
    | _, _ => .error ⟨"Invalid location coordinates provided", 400⟩
  | _, _ =>
    .error ⟨"Location coordinates (latitude, longitude) are required for security", 400⟩

/-- `preventOutOfAreaAccess(req, res, next)`: only when the issue id and both
caller coordinates are present does it look the issue up; only when the issue
is found and has `location.coordinates` does it compare the computed distance
against `parseInt(process.env.MAX_SEARCH_RADIUS) || 5` and reject with the
fixed 403 message (hard-coded `5km`); `NaN` coordinates make the comparison
false, so the request proceeds.  Every other combination falls through to
`next()`. -/
def preventOutOfAreaAccess (calculateDistance : ℚ → ℚ → ℚ → ℚ → ℚ)
    (maxSearchRadius : Option ℕ) (findById : String → Option Issue)
    (issueId : Option String) (latitude longitude : QueryParam) :
    Except AppError Unit :=
  match issueId, latitude, longitude with
  | some iid, some latRaw, some lngRaw =>
    match findById iid with
    | some issue =>
      match issue.location with
      | some (issueLng, issueLat) =>
        let maxDistance := maxSearchRadius.getD 5
        match latRaw, lngRaw with
        | some userLat, some userLng =>
          if calculateDistance userLat userLng issueLat issueLng > (maxDistance : ℚ) then
            .error ⟨"This issue is outside your allowed area. You can only access issues within 5km of your location.", 403⟩
          else .ok ()
        | _, _ => .ok ()
      | none => .ok ()
    | none => .ok ()
  | _, _, _ => .ok ()

/-- `toRadians(degrees)` from `utils/geoUtils.js`: `degrees * (Math.PI / 180)`. -/
noncomputable def toRadians (degrees : ℝ) : ℝ :=
  degrees * (Real.pi / 180)

/-- JavaScript `Math.atan2(y, x)` on finite inputs (signed zero ignored):
the angle of the point `(x, y)` in `(-π, π]`. -/
noncomputable def jsAtan2 (y x : ℝ) : ℝ :=
  if 0 < x then Real.arctan (y / x)
  else if x < 0 then
    (if 0 ≤ y then Real.arctan (y / x) + Real.pi else Real.arctan (y / x) - Real.pi)
  else
    (if 0 < y then Real.pi / 2 else if y < 0 then -(Real.pi / 2) else 0)

/-- JavaScript `Math.round(x)` on finite inputs: the nearest integer, halves
rounding toward positive infinity, i.e. `⌊x + 1/2⌋`. -/
noncomputable def jsRound (x : ℝ) : ℝ :=
  (⌊x + 1 / 2⌋ : ℤ)

/-- The intermediate value `a` of `calculateDistance`:
`sin(dLat/2)·sin(dLat/2) + cos(toRadians(lat1))·cos(toRadians(lat2))·sin(dLon/2)·sin(dLon/2)`
with `dLat = toRadians(lat2 - lat1)` and `dLon = toRadians(lon2 - lon1)`. -/
noncomputable def haversineA (lat1 lon1 lat2 lon2 : ℝ) : ℝ :=
  Real.sin (toRadians (lat2 - lat1) / 2) * Real.sin (toRadians (lat2 - lat1) / 2) +
    Real.cos (toRadians lat1) * Real.cos (toRadians lat2) *
      (Real.sin (toRadians (lon2 - lon1) / 2) * Real.sin (toRadians (lon2 - lon1) / 2))

/-- `calculateDistance(lat1, lon1, lat2, lon2)` from `utils/geoUtils.js`:
haversine distance with `R = 6371`, `c = 2·atan2(√a, √(1-a))`,
`distance = R·c`, returned as `Math.round(distance * 100) / 100`. -/
noncomputable def calculateDistance (lat1 lon1 lat2 lon2 : ℝ) : ℝ :=
  jsRound (6371 *
      (2 * jsAtan2 (Real.sqrt (haversineA lat1 lon1 lat2 lon2))
        (Real.sqrt (1 - haversineA lat1 lon1 lat2 lon2))) * 100) / 100

/-- A populated non-anonymous reporter used in concrete evaluations. -/
def aliceReporter : Reporter :=
  { _id := some 1, username := some "alice", email := some "alice@example.com" }

/-- A comment by a non-anonymous commenter used in concrete evaluations. -/
def bobComment : Comment :=
  { username := some "bob", user := some { _id := 5, username := some "bob" }, text := "please fix" }

/-- A concrete anonymous issue (`isAnonymous = true`, no reporter reference). -/
def anonymousIssue : Issue :=
  { _id := 10, title := "streetlight out", location := some (0, 0), reportedBy := none,
    isAnonymous := true, isHidden := false, reporterName := none,
    comments := some [bobComment], activityLog := none }

/-- A concrete non-anonymous, non-hidden issue reported by `aliceReporter`. -/
def reportedIssue : Issue :=
  { _id := 11, title := "pothole", location := some (0, 0), reportedBy := some aliceReporter,
    isAnonymous := false, isHidden := false, reporterName := none,
    comments := none, activityLog := none }

/-- The same issue flagged hidden by moderation. -/
def hiddenIssue : Issue :=
  { reportedIssue with _id := 12, isHidden := true }

theorem jsAtan2_nonneg (y x : ℝ) (hy : 0 ≤ y) : 0 ≤ jsAtan2 y x := by
  unfold jsAtan2
  by_cases h1 : 0 < x
  · rw [if_pos h1]
    have hdiv : 0 ≤ y / x := div_nonneg hy h1.le
    have h := Real.arctan_strictMono.monotone hdiv
    rwa [Real.arctan_zero] at h
  · rw [if_neg h1]
    by_cases h2 : x < 0
    · rw [if_pos h2, if_pos hy]
      have h := Real.neg_pi_div_two_lt_arctan (y / x)
      have hpi := Real.pi_pos
      linarith
    · rw [if_neg h2]
      by_cases h3 : 0 < y
      · rw [if_pos h3]
        have hpi := Real.pi_pos
        linarith
      · rw [if_neg h3, if_neg (not_lt.mpr hy)]

theorem haversineA_symm (lat1 lon1 lat2 lon2 : ℝ) :
    haversineA lat1 lon1 lat2 lon2 = haversineA lat2 lon2 lat1 lon1 := by
  unfold haversineA
  have h : ∀ x y : ℝ, Real.sin (toRadians (x - y) / 2) = -Real.sin (toRadians (y - x) / 2) := by
    intro x y
    rw [show toRadians (x - y) / 2 = -(toRadians (y - x) / 2) by unfold toRadians; ring,
      Real.sin_neg]
  rw [h lat1 lat2, h lon1 lon2]
  ring

theorem haversineA_self (lat lon : ℝ) : haversineA lat lon lat lon = 0 := by
  unfold haversineA toRadians
  simp

theorem jsRound_zero : jsRound 0 = 0 := by
  unfold jsRound
  have : ⌊(0 : ℝ) + 1 / 2⌋ = 0 := by
    rw [Int.floor_eq_zero_iff]
    constructor <;> norm_num
  rw [this]
  norm_num

theorem jsAtan2_zero_one : jsAtan2 0 1 = 0 := by
  unfold jsAtan2
  rw [if_pos one_pos]
  norm_num [Real.arctan_zero]

/-- Claim C9: `calculateDistance` is symmetric, is zero on identical points,
is always nonnegative, and returns the haversine great-circle distance with
Earth radius 6371 km rounded to 2 decimal places (an integer multiple of
1/100). -/
theorem calculateDistance_spec (lat1 lon1 lat2 lon2 : ℝ) :
    calculateDistance lat1 lon1 lat2 lon2 = calculateDistance lat2 lon2 lat1 lon1 ∧
    calculateDistance lat1 lon1 lat1 lon1 = 0 ∧
    0 ≤ calculateDistance lat1 lon1 lat2 lon2 ∧
    ∃ n : ℤ, calculateDistance lat1 lon1 lat2 lon2 = (n : ℝ) / 100 := by
  refine ⟨?_, ?_, ?_, ?_⟩
  · unfold calculateDistance
    rw [haversineA_symm lat1 lon1 lat2 lon2]
  · unfold calculateDistance
    rw [haversineA_self]
    simp only [Real.sqrt_zero, sub_zero, Real.sqrt_one, jsAtan2_zero_one]
    norm_num [jsRound_zero]
  · unfold calculateDistance
    have ht : 0 ≤ jsAtan2 (Real.sqrt (haversineA lat1 lon1 lat2 lon2))
        (Real.sqrt (1 - haversineA lat1 lon1 lat2 lon2)) :=
      jsAtan2_nonneg _ _ (Real.sqrt_nonneg _)
    have hX : (0 : ℝ) ≤ 6371 * (2 * jsAtan2 (Real.sqrt (haversineA lat1 lon1 lat2 lon2))
        (Real.sqrt (1 - haversineA lat1 lon1 lat2 lon2))) * 100 := by nlinarith
    unfold jsRound
    have h4 : (0 : ℤ) ≤ ⌊6371 * (2 * jsAtan2 (Real.sqrt (haversineA lat1 lon1 lat2 lon2))
        (Real.sqrt (1 - haversineA lat1 lon1 lat2 lon2))) * 100 + 1 / 2⌋ :=
      Int.floor_nonneg.mpr (by linarith)
    have h5 : (0 : ℝ) ≤ ((⌊6371 * (2 * jsAtan2 (Real.sqrt (haversineA lat1 lon1 lat2 lon2))
        (Real.sqrt (1 - haversineA lat1 lon1 lat2 lon2))) * 100 + 1 / 2⌋ : ℤ) : ℝ) := by
      exact_mod_cast h4
    exact div_nonneg h5 (by norm_num)
  · unfold calculateDistance jsRound
    exact ⟨_, rfl⟩

/-- Claim C1: on a single-item read with both caller coordinates present and
valid and a found, non-hidden issue carrying location coordinates, `getIssue`
rejects with the 403 out-of-area error (whose message names the configured
maximum distance) exactly when the computed distance exceeds
`parseInt(MAX_SEARCH_RADIUS) || 5`, and allows access when the distance is at
most that maximum.  The check runs on the item fetched by id itself, for any
distance function and independently of any collection filtering. -/
theorem getIssue_outOfArea_spec
    (calculateDistance : ℚ → ℚ → ℚ → ℚ → ℚ) (maxSearchRadius : Option ℕ)
    (user : Option User) (userLat userLng issueLng issueLat : ℚ) (issue : Issue)
    (hvalid : ¬(userLat < -90 ∨ userLat > 90 ∨ userLng < -180 ∨ userLng > 180))
    (hhid : issue.isHidden = false)
    (hloc : issue.location = some (issueLng, issueLat)) :
    (calculateDistance userLat userLng issueLat issueLng > (maxSearchRadius.getD 5 : ℚ) →
      getIssue calculateDistance maxSearchRadius user (some (some userLat))
        (some (some userLng)) (some issue) =
        .error ⟨outOfAreaMessage (maxSearchRadius.getD 5), 403⟩) ∧
    (calculateDistance userLat userLng issueLat issueLng ≤ (maxSearchRadius.getD 5 : ℚ) →
      getIssue calculateDistance maxSearchRadius user (some (some userLat))
        (some (some userLng)) (some issue) = .ok issue) := by
  constructor
  · intro hgt
    simp [getIssue, hvalid, hhid, hloc, hgt]
  · intro hle
    simp [getIssue, hvalid, hhid, hloc, not_lt.mpr hle]

/-- Witness for C1: with the constant distance function 10 km and the default
5 km maximum, caller `(0,0)` is denied the concrete `reportedIssue` with the
out-of-area 403. -/
theorem getIssue_outOfArea_spec_witness :
    getIssue (fun _ _ _ _ => 10) none (some ⟨2, "user"⟩) (some (some 0)) (some (some 0))
      (some reportedIssue) = .error ⟨outOfAreaMessage 5, 403⟩ := by
  have h := getIssue_outOfArea_spec (fun _ _ _ _ => 10) none (some ⟨2, "user"⟩) 0 0 0 0
    reportedIssue (by norm_num) rfl rfl
  exact h.1 (by norm_num)

/-- Counterexample to C2: a caller with role `moderator` IS blocked by the
hidden flag — the hidden `hiddenIssue` yields the `Issue not found` 404 for a
moderator, while the same request on the identical non-hidden issue succeeds.
The claim asserts a moderator is not blocked. -/
theorem getIssue_hidden_moderator_cex :
    getIssue (fun _ _ _ _ => 0) none (some ⟨7, "moderator"⟩) (some (some 0)) (some (some 0))
      (some hiddenIssue) = .error ⟨"Issue not found", 404⟩ ∧
    getIssue (fun _ _ _ _ => 0) none (some ⟨7, "moderator"⟩) (some (some 0)) (some (some 0))
      (some reportedIssue) = .ok reportedIssue := by
  constructor <;> rfl

/-- Claim C2 (amended): for a found hidden issue and valid present caller
coordinates, every caller whose role is not `admin` — including `moderator`
and unauthenticated callers — receives `Issue not found` (404), identical in
shape to the result for an issue that does not exist at all; only a caller
with role `admin` is not blocked by the hidden flag (an admin never receives
the not-found outcome on a found issue). -/
theorem getIssue_hidden_admin_only
    (calculateDistance : ℚ → ℚ → ℚ → ℚ → ℚ) (maxSearchRadius : Option ℕ)
    (user : Option User) (userLat userLng : ℚ) (issue : Issue)
    (hvalid : ¬(userLat < -90 ∨ userLat > 90 ∨ userLng < -180 ∨ userLng > 180))
    (hhid : issue.isHidden = true) :
    (user.map User.role ≠ some "admin" →
      getIssue calculateDistance maxSearchRadius user (some (some userLat))
        (some (some userLng)) (some issue) = .error ⟨"Issue not found", 404⟩ ∧
      getIssue calculateDistance maxSearchRadius user (some (some userLat))
        (some (some userLng)) none = .error ⟨"Issue not found", 404⟩) ∧
    (user.map User.role = some "admin" →
      getIssue calculateDistance maxSearchRadius user (some (some userLat))
        (some (some userLng)) (some issue) ≠ .error ⟨"Issue not found", 404⟩) := by
  constructor
  · intro hrole
    constructor
    · simp [getIssue, hvalid, hhid, hrole]
    · simp [getIssue, hvalid]
  · intro hrole
    simp only [getIssue, hrole]
    rw [if_neg hvalid]
    simp only [hhid]
    rw [if_neg (by simp)]
    cases hl : issue.location with
    | none => simp
    | some p =>
      obtain ⟨lng, lat⟩ := p
      by_cases hgt : calculateDistance userLat userLng lat lng > (maxSearchRadius.getD 5 : ℚ)
      · simp [hgt]
      · simp [hgt]

/-- Witness for C2 (amended): a moderator and a missing issue both get the
`Issue not found` 404 on the hidden `hiddenIssue`; the admin caller is not
blocked. -/
theorem getIssue_hidden_admin_only_witness :
    (getIssue (fun _ _ _ _ => 0) none (some ⟨7, "moderator"⟩) (some (some 0)) (some (some 0))
      (some hiddenIssue) = .error ⟨"Issue not found", 404⟩ ∧
    getIssue (fun _ _ _ _ => 0) none (some ⟨7, "moderator"⟩) (some (some 0)) (some (some 0))
      none = .error ⟨"Issue not found", 404⟩) ∧
    getIssue (fun _ _ _ _ => 0) none (some ⟨8, "admin"⟩) (some (some 0)) (some (some 0))
      (some hiddenIssue) ≠ .error ⟨"Issue not found", 404⟩ := by
  constructor
  · exact (getIssue_hidden_admin_only (fun _ _ _ _ => 0) none (some ⟨7, "moderator"⟩) 0 0
      hiddenIssue (by norm_num) rfl).1 (by decide)
  · exact (getIssue_hidden_admin_only (fun _ _ _ _ => 0) none (some ⟨8, "admin"⟩) 0 0
      hiddenIssue (by norm_num) rfl).2 (by decide)

/-- Counterexample to C3: `reportedIssue` is not anonymous and reported by
`aliceReporter`; for caller `⟨2, "user"⟩` (neither the reporter nor an admin)
the `restrictDataAccess` view exposes the real display name AND still carries
the reporter's email — the contact field is neither absent nor null, contrary
to the claim. -/
theorem restrictDataAccess_contact_cex :
    (restrictDataAccessIssue (some ⟨2, "user"⟩) reportedIssue).reporterName = some "alice" ∧
    (restrictDataAccessIssue (some ⟨2, "user"⟩) reportedIssue).reportedBy.bind Reporter.email
      = some "alice@example.com" := by
  constructor <;> rfl

/-- Claim C3 (amended): for a non-anonymous issue with a reporter reference
and a caller who is neither the reporter nor an admin, the redacted view
exposes the reporter's real display name, but the `reportedBy` object is
passed through unchanged — in particular the reporter's email remains
present in the view (contact fields are NOT removed). -/
theorem restrictDataAccess_nonowner_view
    (user : User) (issue : Issue) (r : Reporter) (rid : ℕ)
    (hanon : issue.isAnonymous = false)
    (hrb : issue.reportedBy = some r)
    (hrid : r._id = some rid)
    (hrole : user.role ≠ "admin")
    (howner : user._id ≠ rid) :
    (restrictDataAccessIssue (some user) issue).reporterName = r.username ∧
    (restrictDataAccessIssue (some user) issue).reportedBy = some r := by
  have hbeq : (rid == user._id) = false := beq_eq_false_iff_ne.mpr (Ne.symm howner)
  constructor <;>
    simp [restrictDataAccessIssue, hrb, hrid, hrole, hbeq, filterAnonymousData, hanon]

/-- Witness for C3 (amended) at the concrete `reportedIssue` and caller
`⟨2, "user"⟩`. -/
theorem restrictDataAccess_nonowner_view_witness :
    (restrictDataAccessIssue (some ⟨2, "user"⟩) reportedIssue).reporterName =
      aliceReporter.username ∧
    (restrictDataAccessIssue (some ⟨2, "user"⟩) reportedIssue).reportedBy =
      some aliceReporter := by
  exact restrictDataAccess_nonowner_view ⟨2, "user"⟩ reportedIssue aliceReporter 1
    rfl rfl rfl (by decide) (by decide)

theorem jsOr_ne_empty (s : Option String) (d : String) (hd : d ≠ "") : jsOr s d ≠ "" := by
  cases s with
  | none => exact hd
  | some v =>
    show (if v = "" then d else v) ≠ ""
    by_cases hv : v = ""
    · rw [if_pos hv]; exact hd
    · rw [if_neg hv]; exact hv

theorem jsOrAnonymous_idem (s : Option String) :
    jsOr (some (jsOr s "Anonymous")) "Anonymous" = jsOr s "Anonymous" := by
  have hx : jsOr s "Anonymous" ≠ "" := jsOr_ne_empty s _ (by decide)
  exact if_neg hx

theorem jsOrSystem_idem (s : Option String) :
    jsOr (some (jsOr s "System")) "System" = jsOr s "System" := by
  have hx : jsOr s "System" ≠ "" := jsOr_ne_empty s _ (by decide)
  exact if_neg hx

theorem redactComment_idem (c : Comment) : redactComment (redactComment c) = redactComment c := by
  obtain ⟨username, user, text⟩ := c
  cases user <;> simp [redactComment, jsOrAnonymous_idem]

theorem redactLogEntry_idem (l : LogEntry) :
    redactLogEntry (redactLogEntry l) = redactLogEntry l := by
  obtain ⟨actorName, actor, action⟩ := l
  cases actor <;> simp [redactLogEntry, jsOrSystem_idem]

theorem mapRedactComment_idem (l : List Comment) :
    (l.map redactComment).map redactComment = l.map redactComment := by
  induction l with
  | nil => rfl
  | cons a t ih => simp [redactComment_idem, ih]

theorem mapRedactLogEntry_idem (l : List LogEntry) :
    (l.map redactLogEntry).map redactLogEntry = l.map redactLogEntry := by
  induction l with
  | nil => rfl
  | cons a t ih => simp [redactLogEntry_idem, ih]

/-- Claim C7: for an issue with `isAnonymous` true or a null reporter
reference, and any caller, redaction replaces the reporter with exactly the
sentinel `{_id: null, username: 'Anonymous', email: null}` (and forces the
anonymous flag — a null reporter is treated as anonymous regardless of the
flag), while each nested comment is rewritten by `redactComment`, which keeps
the commenter's own (non-empty) username whenever present. -/
theorem filterAnonymousData_anonymous_spec (issue : Issue) (user : Option User)
    (h : issue.isAnonymous = true ∨ issue.reportedBy = none) :
    (filterAnonymousData issue user).reportedBy =
      some { _id := none, username := some "Anonymous", email := none } ∧
    (filterAnonymousData issue user).reporterName = some "Anonymous" ∧
    (filterAnonymousData issue user).isAnonymous = true ∧
    (filterAnonymousData issue user).comments = issue.comments.map (List.map redactComment) ∧
    ∀ c : Comment, ∀ s : String, c.username = some s → s ≠ "" →
      (redactComment c).username = some s := by
  have hcond : (issue.isAnonymous || issue.reportedBy.isNone) = true := by
    rcases h with h | h <;> simp [h]
  refine ⟨?_, ?_, ?_, ?_, ?_⟩
  · simp [filterAnonymousData, hcond]
  · simp [filterAnonymousData, hcond]
  · simp [filterAnonymousData, hcond]
  · simp [filterAnonymousData, hcond]
  · intro c s hs hne
    simp [redactComment, jsOr, hs, hne]

/-- Witness for C7 at the concrete `anonymousIssue` (whose single comment is
by the non-anonymous commenter `"bob"`). -/
theorem filterAnonymousData_anonymous_spec_witness :
    ((filterAnonymousData anonymousIssue none).reportedBy =
      some { _id := none, username := some "Anonymous", email := none } ∧
    (filterAnonymousData anonymousIssue none).reporterName = some "Anonymous" ∧
    (filterAnonymousData anonymousIssue none).isAnonymous = true ∧
    (filterAnonymousData anonymousIssue none).comments =
      anonymousIssue.comments.map (List.map redactComment) ∧
    ∀ c : Comment, ∀ s : String, c.username = some s → s ≠ "" →
      (redactComment c).username = some s) ∧
    (redactComment bobComment).username = some "bob" := by
  have h := filterAnonymousData_anonymous_spec anonymousIssue none (Or.inl rfl)
  exact ⟨h, h.2.2.2.2 bobComment "bob" rfl (by decide)⟩

/-- Claim C8: redaction is idempotent — redacting an already-redacted issue
yields the same result, for every issue and caller. -/
theorem filterAnonymousData_idempotent (issue : Issue) (user : Option User) :
    filterAnonymousData (filterAnonymousData issue user) user =
      filterAnonymousData issue user := by
  obtain ⟨id, title, loc, rb, anon, hid, rname, cs, al⟩ := issue
  cases anon <;> cases rb <;>
    cases cs <;> cases al <;>
      simp [filterAnonymousData, mapRedactComment_idem, mapRedactLogEntry_idem,
        redactComment_idem, redactLogEntry_idem]

theorem listRequestGate_reduce (maxSearchRadius : Option ℕ) (userLat userLng : ℚ)
    (hvalid : ¬(userLat < -90 ∨ userLat > 90 ∨ userLng < -180 ∨ userLng > 180))
    (distance : QueryParam) :
    listRequestGate maxSearchRadius (some (some userLat)) (some (some userLng)) distance =
      enforceDistanceRestrictions maxSearchRadius (some (some userLat)) (some (some userLng))
        distance := by
  unfold listRequestGate
  rw [show enforceLocationRestrictions "GET" "/" none (some (some userLat))
      (some (some userLng)) =
      if userLat < -90 ∨ userLat > 90 ∨ userLng < -180 ∨ userLng > 180 then
        .error ⟨"Invalid location coordinates provided", 400⟩
      else .ok () from rfl]
  rw [if_neg hvalid]
  rfl

/-- Claim C4: a list/map request that explicitly supplies a numeric search
radius greater than `parseInt(MAX_SEARCH_RADIUS) || 5` is rejected by the
gate with the 400 radius error rather than silently truncated (given
well-formed caller coordinates, which the route checks first); a request
whose radius is within the maximum proceeds, and the effective radius used by
the distance filter is `min(requested, max)`. -/
theorem listRequestGate_radius_spec (maxSearchRadius : Option ℕ) (userLat userLng r : ℚ)
    (hvalid : ¬(userLat < -90 ∨ userLat > 90 ∨ userLng < -180 ∨ userLng > 180)) :
    (r > (maxSearchRadius.getD 5 : ℚ) →
      listRequestGate maxSearchRadius (some (some userLat)) (some (some userLng))
        (some (some r)) = .error ⟨distanceTooLargeMessage (maxSearchRadius.getD 5), 400⟩) ∧
    (r ≤ (maxSearchRadius.getD 5 : ℚ) →
      listRequestGate maxSearchRadius (some (some userLat)) (some (some userLng))
        (some (some r)) = .ok ()) ∧
    effectiveRadius maxSearchRadius (some (some r)) =
      some (min r (maxSearchRadius.getD 5 : ℚ)) := by
  refine ⟨?_, ?_, rfl⟩
  · intro hgt
    rw [listRequestGate_reduce maxSearchRadius userLat userLng hvalid]
    simp [enforceDistanceRestrictions, hgt]
  · intro hle
    rw [listRequestGate_reduce maxSearchRadius userLat userLng hvalid]
    simp [enforceDistanceRestrictions, not_lt.mpr hle, hvalid]

/-- Witness for C4: with the default 5 km maximum, requesting 10 km is
rejected with the radius error, requesting 3 km proceeds, and the effective
radius for a 10 km request would be `min 10 5`. -/
theorem listRequestGate_radius_spec_witness :
    listRequestGate none (some (some 0)) (some (some 0)) (some (some 10)) =
      .error ⟨distanceTooLargeMessage 5, 400⟩ ∧
    listRequestGate none (some (some 0)) (some (some 0)) (some (some 3)) = .ok () ∧
    effectiveRadius none (some (some 10)) = some (min 10 5) := by
  refine ⟨?_, ?_, ?_⟩
  · exact (listRequestGate_radius_spec none 0 0 10 (by norm_num)).1 (by norm_num)
  · exact (listRequestGate_radius_spec none 0 0 3 (by norm_num)).2.1 (by norm_num)
  · exact (listRequestGate_radius_spec none 0 0 10 (by norm_num)).2.2

/-- Claim C5: whenever both caller coordinates are present but one of them is
non-numeric (`NaN`) or out of domain, the list-route gate rejects with the
400 `Invalid location coordinates provided` error, for every requested
radius; the chain contains no distance computation at all (no distance
function appears in `listRequestGate`), and it never proceeds. -/
theorem listRequestGate_invalidLocation (maxSearchRadius : Option ℕ)
    (latRaw lngRaw : Option ℚ) (distance : QueryParam)
    (h : latRaw = none ∨ lngRaw = none ∨
      ∃ la ln, latRaw = some la ∧ lngRaw = some ln ∧
        (la < -90 ∨ la > 90 ∨ ln < -180 ∨ ln > 180)) :
    listRequestGate maxSearchRadius (some latRaw) (some lngRaw) distance =
      .error ⟨"Invalid location coordinates provided", 400⟩ := by
  rcases h with h | h | ⟨la, ln, hla, hln, hrange⟩
  · subst h
    cases lngRaw <;> rfl
  · subst h
    cases latRaw <;> rfl
  · subst hla
    subst hln
    unfold listRequestGate
    rw [show enforceLocationRestrictions "GET" "/" none (some (some la)) (some (some ln)) =
        if la < -90 ∨ la > 90 ∨ ln < -180 ∨ ln > 180 then
          .error ⟨"Invalid location coordinates provided", 400⟩
        else .ok () from rfl]
    rw [if_pos hrange]

/-- Witness for C5: `latitude=200` (scenario 3) and a non-numeric latitude
are both rejected with the invalid-location error, even alongside an
oversized radius request in the second case. -/
theorem listRequestGate_invalidLocation_witness :
    listRequestGate none (some (some 200)) (some (some 0)) none =
      .error ⟨"Invalid location coordinates provided", 400⟩ ∧
    listRequestGate none (some none) (some (some 0)) (some (some 10)) =
      .error ⟨"Invalid location coordinates provided", 400⟩ := by
  constructor
  · exact listRequestGate_invalidLocation none (some 200) (some 0) none
      (Or.inr (Or.inr ⟨200, 0, rfl, rfl, by norm_num⟩))
  · exact listRequestGate_invalidLocation none none (some 0) (some (some 10)) (Or.inl rfl)

/-- Claim C6: with caller coordinates present and a numeric effective radius,
`filterIssuesByDistance` keeps exactly the candidate issues (each carrying
location coordinates) whose computed distance is at most the effective
radius, and the result is a sublist of the input — the relative order of the
survivors is the input order (the filter never reorders). -/
theorem filterIssuesByDistance_spec
    (calculateDistance : ℚ → ℚ → ℚ → ℚ → ℚ) (maxSearchRadius : Option ℕ)
    (userLat userLng : ℚ) (distance : QueryParam) (r : ℚ) (issues : List Issue)
    (hr : effectiveRadius maxSearchRadius distance = some r)
    (hloc : ∀ i ∈ issues, i.location ≠ none) :
    (filterIssuesByDistance calculateDistance maxSearchRadius (some (some userLat))
      (some (some userLng)) distance issues).Sublist issues ∧
    ∀ i lng lat, i ∈ issues → i.location = some (lng, lat) →
      (i ∈ filterIssuesByDistance calculateDistance maxSearchRadius (some (some userLat))
        (some (some userLng)) distance issues ↔
        calculateDistance userLat userLng lat lng ≤ r) := by
  constructor
  · exact List.filter_sublist _
  · intro i lng lat hi hil
    unfold filterIssuesByDistance
    rw [List.mem_filter]
    simp only [hil, hr, decide_eq_true_eq]
    exact ⟨fun h => h.2, fun h => ⟨hi, h⟩⟩

/-- Witness for C6 at a concrete input: constant distance 3 km, default
radius, single candidate `reportedIssue`. -/
theorem filterIssuesByDistance_spec_witness :
    (filterIssuesByDistance (fun _ _ _ _ => 3) none (some (some 0)) (some (some 0)) none
      [reportedIssue]).Sublist [reportedIssue] ∧
    ∀ i lng lat, i ∈ [reportedIssue] → i.location = some (lng, lat) →
      (i ∈ filterIssuesByDistance (fun _ _ _ _ => 3) none (some (some 0)) (some (some 0)) none
        [reportedIssue] ↔ (3 : ℚ) ≤ 5) := by
  exact filterIssuesByDistance_spec (fun _ _ _ _ => 3) none 0 0 none 5 [reportedIssue] rfl
    (by intro i hi; simp at hi; subst hi; exact Option.some_ne_none _)

/-- Claim C10: the single-item out-of-area middleware rejects exactly when
the issue id and both caller coordinates are present, the stored issue is
found with location coordinates, both coordinates parse to numbers, and the
computed distance exceeds the maximum; in every other situation — caller
coordinates absent, issue not found, issue without location coordinates,
non-numeric coordinates, or distance within range — the request proceeds as
allowed. -/
theorem preventOutOfAreaAccess_reject_iff
    (calculateDistance : ℚ → ℚ → ℚ → ℚ → ℚ) (maxSearchRadius : Option ℕ)
    (findById : String → Option Issue) (issueId : Option String)
    (latitude longitude : QueryParam) :
    (∃ e, preventOutOfAreaAccess calculateDistance maxSearchRadius findById issueId
        latitude longitude = .error e) ↔
    (∃ iid userLat userLng issue issueLng issueLat,
      issueId = some iid ∧ latitude = some (some userLat) ∧
      longitude = some (some userLng) ∧ findById iid = some issue ∧
      issue.location = some (issueLng, issueLat) ∧
      calculateDistance userLat userLng issueLat issueLng > (maxSearchRadius.getD 5 : ℚ)) := by
  constructor
  · rintro ⟨e, he⟩
    obtain _ | iid := issueId
    · exact absurd he (by simp [preventOutOfAreaAccess])
    obtain _ | latRaw := latitude
    · exact absurd he (by simp [preventOutOfAreaAccess])
    obtain _ | lngRaw := longitude
    · exact absurd he (by simp [preventOutOfAreaAccess])
    cases hF : findById iid with
    | none => simp [preventOutOfAreaAccess, hF] at he
    | some issue =>
      cases hL : issue.location with
      | none => simp [preventOutOfAreaAccess, hF, hL] at he
      | some p =>
        obtain ⟨issueLng, issueLat⟩ := p
        obtain _ | userLat := latRaw
        · simp [preventOutOfAreaAccess, hF, hL] at he
        obtain _ | userLng := lngRaw
        · simp [preventOutOfAreaAccess, hF, hL] at he
        by_cases hgt :
          calculateDistance userLat userLng issueLat issueLng > (maxSearchRadius.getD 5 : ℚ)
        · exact ⟨iid, userLat, userLng, issue, issueLng, issueLat, rfl, rfl, rfl, hF, hL, hgt⟩
        · simp [preventOutOfAreaAccess, hF, hL, hgt] at he
  · rintro ⟨iid, userLat, userLng, issue, issueLng, issueLat, h1, h2, h3, hF, hL, hgt⟩
    subst h1; subst h2; subst h3
    refine ⟨⟨"This issue is outside your allowed area. You can only access issues within 5km of your location.", 403⟩, ?_⟩
    simp [preventOutOfAreaAccess, hF, hL, hgt]
